import Mathlib

/-
Verification of the raft RPC transport (src/service/raft/raft_rpc.cc,
src/service/raft/raft_rpc.hh) of the scylla repository.

The transport binds a raft consensus engine to a messaging substrate.  Its
outbound surface has two shapes: request/response calls (send_snapshot,
send_append_entries, execute_read_barrier_on_leader) that forward the
substrate's result to the caller, and six fire-and-forget calls
(send_append_entries_reply, send_vote_request, send_vote_reply,
send_timeout_now, send_read_quorum, send_read_quorum_reply) that are launched
detached inside a shutdown gate, carry a per-call deadline, and swallow their
own failures (logging non-timeout failures with the destination id).

The embedding below models each source function.  Components the source uses
but whose code is not part of the excerpt (the seastar gate primitive, the
raft_group_registry address map, the serializer for gms::inet_address) are
modelled from the specification's description of their contracts; each such
definition says so in its doc comment.
-/

namespace RaftRpc

/-- Opaque identifier of a consensus participant (raft::server_id). -/
abbrev ServerId := Nat

/-- Opaque identifier of the consensus group (raft::group_id). -/
abbrev GroupId := Nat

/-- A resolved network address (gms::inet_address), abstracted to its
32-bit IPv4 value. -/
abbrev InetAddress := Nat

/-- One byte of the opaque server_info payload. -/
abbrev Byte := Nat

/-- A per-call deadline, as a time point on the ticker clock. -/
abbrev Deadline := Nat

/-- Decoding failure of an administrative address payload. -/
inductive DecodeError
  | malformed
deriving Repr, DecidableEq

/-- The shutdown gate (seastar::gate member _shutdown_gate, raft_rpc.hh line 40).
Modelled from the spec: the gate primitive itself is not part of the excerpt.
It tracks a count of in-flight operations and an open/closing flag; once
closing, new tracked operations are rejected, and the close operation waits
for the count to drain to zero. -/
structure Gate where
  count : Nat
  closed : Bool
deriving Repr, DecidableEq

/-- The address registry (raft_group_registry address mappings).
An association list of (server id, address, expirable flag); the head entry
for an id is its current mapping. -/
abbrev Registry := List (ServerId × InetAddress × Bool)

/-- Modelled from the spec: raft_group_registry::update_address_mapping is not
part of the excerpt; per the spec it installs (id, address, expirable) with
last-write-wins replacement of any previous mapping for the same id. -/
def update_address_mapping (r : Registry) (id : ServerId) (a : InetAddress)
    (expirable : Bool) : Registry :=
  (id, a, expirable) :: r.filter (fun e => ¬ (e.1 = id))

/-- Modelled from the spec: raft_group_registry::remove_address_mapping is not
part of the excerpt; per the spec it removes any mapping for the id,
idempotently. -/
def remove_address_mapping (r : Registry) (id : ServerId) : Registry :=
  r.filter (fun e => ¬ (e.1 = id))

/-- Resolve an id in the registry to its (address, expirable flag), if any. -/
def lookup_address (r : Registry) (id : ServerId) : Option (InetAddress × Bool) :=
  (r.find? (fun e => e.1 = id)).map (fun e => (e.2.1, e.2.2))

/-- Modelled from the spec: raft_group_registry::get_inet_address is not part
of the excerpt; per the spec a resolution for an unknown peer id is surfaced
as a failure of the enclosing send operation. -/
def get_inet_address (r : Registry) (id : ServerId) : Except Unit InetAddress :=
  match lookup_address r id with
  | some (a, _) => Except.ok a
  | none => Except.error ()

/-- Modelled from the spec: ser::deserialize of a gms::inet_address from the
opaque server_info byte payload is not part of the excerpt; per the spec the
payload decodes to a network address, and a malformed payload fails the
decode.  Concretely: exactly four bytes, each below 256, big-endian. -/
def deserialize_inet_address (info : List Byte) : Except DecodeError InetAddress :=
  match info with
  | [b0, b1, b2, b3] =>
    if b0 < 256 ∧ b1 < 256 ∧ b2 < 256 ∧ b3 < 256 then
      Except.ok (((b0 * 256 + b1) * 256 + b2) * 256 + b3)
    else
      Except.error DecodeError.malformed
  | _ => Except.error DecodeError.malformed

/-- raft_rpc::add_server (raft_rpc.cc lines 136-142): parse a gms::inet_address
from the server_info payload and install the mapping as non-expirable
(the expirable flag passed to update_address_mapping is false).  A decode
failure propagates out before update_address_mapping is invoked. -/
def add_server (r : Registry) (id : ServerId) (info : List Byte) :
    Except DecodeError Registry :=
  match deserialize_inet_address info with
  | Except.error e => Except.error e
  | Except.ok a => Except.ok (update_address_mapping r id a false)

/-- The registry state after an add_server call, including the failure case:
a decode failure is an exception thrown before any mutation, so the registry
the caller observes afterwards is unchanged. -/
def add_server_run (r : Registry) (id : ServerId) (info : List Byte) : Registry :=
  match add_server r id info with
  | Except.ok r2 => r2
  | Except.error _ => r

/-- raft_rpc::remove_server (raft_rpc.cc): unconditional removal. -/
def remove_server (r : Registry) (id : ServerId) : Registry :=
  remove_address_mapping r id

/-- The fixed constants the per-call deadline is computed from:
raft_group_registry::tick_interval and raft::ELECTION_TIMEOUT.count().
Their numeric values live outside the excerpt, so they stay parameters. -/
structure Config where
  tick_interval : Nat
  election_timeout : Nat
deriving Repr, DecidableEq

/-- raft_rpc::timeout (raft_rpc.hh lines 42-44):
clock::now() + tick_interval * (ELECTION_TIMEOUT.count() / 2),
with integer division of the election-timeout tick count by two. -/
def rpc_timeout (cfg : Config) (now : Nat) : Deadline :=
  now + cfg.tick_interval * (cfg.election_timeout / 2)

/-- The six fire-and-forget outbound message kinds of raft_rpc. -/
inductive FFKind
  | appendEntriesReply
  | voteRequest
  | voteReply
  | timeoutNow
  | readQuorum
  | readQuorumReply
deriving Repr, DecidableEq

/-- The log line text each fire-and-forget failure handler emits
(raft_rpc.cc, the rlogger.error calls). -/
def ffLogText : FFKind → String
  | FFKind.appendEntriesReply => "Failed to send append reply to"
  | FFKind.voteRequest => "Failed to send vote request"
  | FFKind.voteReply => "Failed to send vote reply"
  | FFKind.timeoutNow => "Failed to send timeout now"
  | FFKind.readQuorum => "Failed to send read barrier"
  | FFKind.readQuorumReply => "Failed to send read barrier reply"

/-- A log entry produced by a fire-and-forget failure handler: the text of
the rlogger.error call and the destination server id it references. -/
structure LogEntry where
  text : String
  dest : ServerId
deriving Repr, DecidableEq

/-- A network send initiated by a fire-and-forget call: message kind,
destination id, resolved address, and the deadline applied. -/
structure SentMsg where
  kind : FFKind
  dest : ServerId
  addr : InetAddress
  deadline : Deadline
deriving Repr, DecidableEq

/-- An in-flight gate-tracked fire-and-forget operation. -/
structure PendingSend where
  kind : FFKind
  dest : ServerId
deriving Repr, DecidableEq

/-- The observable state of one raft_rpc transport instance: the timeout
constants, the current clock reading, the address registry, the shutdown
gate, the in-flight tracked operations, and the cumulative histories of
network sends initiated, log entries emitted, and address resolutions
attempted. -/
structure RpcState where
  cfg : Config
  now : Nat
  registry : Registry
  gate : Gate
  pending : List PendingSend
  sent : List SentMsg
  logs : List LogEntry
  resolves : Nat
deriving Repr, DecidableEq

/-- What a fire-and-forget send_* call does from its caller's point of view:
it either returns normally or raises the gate-closed error synchronously. -/
inductive InvokeResult
  | returned
  | raised_gate_closed
deriving Repr, DecidableEq

/-- One fire-and-forget send_* call (raft_rpc.cc lines 48-134; all six bodies
are identical up to the message kind and log text).  The body is
(void)with_gate(_shutdown_gate, body).  with_gate and gate::enter are
seastar primitives not part of the excerpt, modelled from the spec and the
seastar contract: when the gate is closing, enter() raises the gate-closed
error synchronously, before the body (address resolution and network send)
runs; otherwise the in-flight count is incremented and the body runs.  The
body resolves the destination address and initiates the substrate send with
the rpc_timeout deadline, attaching the failure handler to the send.  If
address resolution itself fails, the exception is thrown before the handler
is attached: the detached task fails, the gate is left, and the failed
result is discarded by the (void) cast, so nothing is sent and nothing is
logged. -/
def ff_invoke (s : RpcState) (k : FFKind) (id : ServerId) :
    InvokeResult × RpcState :=
  if s.gate.closed then
    (InvokeResult.raised_gate_closed, s)
  else
    let s1 : RpcState :=
      { s with gate := { s.gate with count := s.gate.count + 1 },
               resolves := s.resolves + 1 }
    match get_inet_address s.registry id with
    | Except.error _ =>
      (InvokeResult.returned,
        { s1 with gate := { s1.gate with count := s1.gate.count - 1 } })
    | Except.ok addr =>
      (InvokeResult.returned,
        { s1 with
            sent := s1.sent ++ [⟨k, id, addr, rpc_timeout s.cfg s.now⟩],
            pending := s1.pending ++ [⟨k, id⟩] })

/-- raft_rpc::send_append_entries_reply (raft_rpc.cc lines 48-60). -/
def send_append_entries_reply (s : RpcState) (id : ServerId) :
    InvokeResult × RpcState :=
  ff_invoke s FFKind.appendEntriesReply id

/-- raft_rpc::send_vote_request (raft_rpc.cc lines 62-74). -/
def send_vote_request (s : RpcState) (id : ServerId) :
    InvokeResult × RpcState :=
  ff_invoke s FFKind.voteRequest id

/-- raft_rpc::send_vote_reply (raft_rpc.cc lines 76-88). -/
def send_vote_reply (s : RpcState) (id : ServerId) :
    InvokeResult × RpcState :=
  ff_invoke s FFKind.voteReply id

/-- raft_rpc::send_timeout_now (raft_rpc.cc lines 90-102). -/
def send_timeout_now (s : RpcState) (id : ServerId) :
    InvokeResult × RpcState :=
  ff_invoke s FFKind.timeoutNow id

/-- raft_rpc::send_read_quorum (raft_rpc.cc lines 104-116). -/
def send_read_quorum (s : RpcState) (id : ServerId) :
    InvokeResult × RpcState :=
  ff_invoke s FFKind.readQuorum id

/-- raft_rpc::send_read_quorum_reply (raft_rpc.cc lines 118-131). -/
def send_read_quorum_reply (s : RpcState) (id : ServerId) :
    InvokeResult × RpcState :=
  ff_invoke s FFKind.readQuorumReply id

/-- The outcome the messaging substrate reports for a completed
fire-and-forget send: success, the distinguished rpc timeout error, or any
other failure. -/
inductive Outcome
  | ok
  | timeout
  | failure (detail : Nat)
deriving Repr, DecidableEq

/-- The handle_exception continuation attached to every fire-and-forget send
(raft_rpc.cc): a seastar::rpc::timeout_error is swallowed with no output;
any other exception produces one rlogger.error line referencing the
destination id.  Nothing is retried and nothing reaches the caller. -/
def handle_ff_exception (k : FFKind) (id : ServerId) : Outcome → List LogEntry
  | Outcome.ok => []
  | Outcome.timeout => []
  | Outcome.failure _ => [⟨ffLogText k, id⟩]

/-- Completion of the oldest in-flight tracked send with outcome o: the
exception handler runs, then with_gate's finally leaves the gate,
decrementing the in-flight count. -/
def ff_complete (s : RpcState) (o : Outcome) : RpcState :=
  match s.pending with
  | [] => s
  | p :: rest =>
    { s with
        pending := rest,
        logs := s.logs ++ handle_ff_exception p.kind p.dest o,
        gate := { s.gate with count := s.gate.count - 1 } }

/-- raft_rpc::abort (raft_rpc.cc lines 148-150): _shutdown_gate.close().
Closing flips the gate to the closing phase; the returned future (modelled
by the abort_returned predicate below) resolves once the in-flight count
has drained to zero.  Modelled from the spec: seastar::gate::close is not
part of the excerpt; per the spec, closing an already-closed gate is safe
and must not crash, chosen here as a benign no-op. -/
def abort (s : RpcState) : RpcState :=
  { s with gate := { s.gate with closed := true } }

/-- Whether the future returned by abort() has resolved: the gate is closing
and every in-flight tracked operation has finished. -/
def abort_returned (s : RpcState) : Bool :=
  s.gate.closed && s.gate.count == 0

/-- The events that can act on a transport instance after a point in time:
a fire-and-forget send call, the completion of an in-flight send with some
outcome, or a call to abort. -/
inductive Event
  | invoke (k : FFKind) (id : ServerId)
  | complete (o : Outcome)
  | abortCall
deriving Repr, DecidableEq

/-- Apply one event to the state.  An invoke that raises gate-closed leaves
the state unchanged (the exception propagates to the caller). -/
def step (s : RpcState) (e : Event) : RpcState :=
  match e with
  | Event.invoke k id => (ff_invoke s k id).2
  | Event.complete o => ff_complete s o
  | Event.abortCall => abort s

/-- Apply a sequence of events to the state. -/
def run (s : RpcState) (es : List Event) : RpcState :=
  es.foldl step s

/-- An append_request payload (opaque value carried through unmodified). -/
abbrev AppendRequest := Nat

/-- The result the substrate produces for send_raft_append_entries
(an opaque completion value carried through unmodified). -/
abbrev AppendResult := Nat

/-- An install_snapshot payload. -/
abbrev InstallSnapshot := Nat

/-- A snapshot_reply value produced by the substrate. -/
abbrev SnapshotReply := Nat

/-- A failure reported by the messaging substrate for a request/response
call: the distinguished timeout outcome or any other failure. -/
inductive SendFailure
  | timeout
  | other (detail : Nat)
deriving Repr, DecidableEq

/-- Failure of a request/response transport call: the address resolution
failed, or the substrate call failed. -/
inductive CallError
  | resolve
  | net (f : SendFailure)
deriving Repr, DecidableEq

/-- The behaviour of one messaging-substrate send verb: given the resolved
destination address, the deadline argument (none models db::no_timeout),
group id, local server id, destination id and payload, it produces a result
or a failure.  The substrate is external; its behaviour is a parameter. -/
abbrev SubstrateSend (payload result : Type) :=
  InetAddress → Option Deadline → GroupId → ServerId → ServerId → payload →
    Except SendFailure result

/-- raft_rpc::send_append_entries (raft_rpc.cc lines 43-46): resolve the
destination address and forward to
messaging_service::send_raft_append_entries with db::no_timeout as the
deadline argument; the substrate's result, value or failure, is the call's
result, untouched. -/
def send_append_entries (net : SubstrateSend AppendRequest AppendResult)
    (r : Registry) (gid : GroupId) (selfId : ServerId)
    (id : ServerId) (req : AppendRequest) : Except CallError AppendResult :=
  match get_inet_address r id with
  | Except.error _ => Except.error CallError.resolve
  | Except.ok addr =>
    match net addr none gid selfId id req with
    | Except.ok v => Except.ok v
    | Except.error f => Except.error (CallError.net f)

/-- raft_rpc::send_snapshot (raft_rpc.cc lines 38-41): resolve the
destination address and forward to messaging_service::send_raft_snapshot
with db::no_timeout; the substrate's result is the call's result. -/
def send_snapshot (net : SubstrateSend InstallSnapshot SnapshotReply)
    (r : Registry) (gid : GroupId) (selfId : ServerId)
    (id : ServerId) (snap : InstallSnapshot) : Except CallError SnapshotReply :=
  match get_inet_address r id with
  | Except.error _ => Except.error CallError.resolve
  | Except.ok addr =>
    match net addr none gid selfId id snap with
    | Except.ok v => Except.ok v
    | Except.error f => Except.error (CallError.net f)

/-- A concrete transport state whose shutdown gate is closed and drained:
tick_interval 100, election timeout count 10, clock at 1000, one registry
entry, no in-flight work, no history. -/
def closedState : RpcState :=
  ⟨⟨100, 10⟩, 1000, [(3, 99, true)], ⟨0, true⟩, [], [], [], 0⟩

/-- A concrete transport state with an open gate and one in-flight tracked
vote-request send to id 7. -/
def pendingState : RpcState :=
  ⟨⟨100, 10⟩, 1000, [(7, 42, true)], ⟨1, false⟩,
   [⟨FFKind.voteRequest, 7⟩], [⟨FFKind.voteRequest, 7, 42, 1500⟩], [], 1⟩

/-- A concrete transport state with an open gate and a registry resolving
id 7 to address 42. -/
def openState : RpcState :=
  ⟨⟨100, 10⟩, 1000, [(7, 42, true)], ⟨0, false⟩, [], [], [], 0⟩

/-- A concrete transport state with an open gate and an empty registry, so
every resolution fails. -/
def emptyRegState : RpcState :=
  ⟨⟨100, 10⟩, 1000, [], ⟨0, false⟩, [], [], [], 0⟩

/- ---------------------------------------------------------------------
Helper lemmas
--------------------------------------------------------------------- -/

/-- Resolving an id right after installing a mapping for it yields that
mapping. -/
theorem lookup_update_self (r : Registry) (id : ServerId) (a : InetAddress)
    (e : Bool) :
    lookup_address (update_address_mapping r id a e) id = some (a, e) := by
  simp [lookup_address, update_address_mapping, List.find?]

/-- One step preserves the drained-and-closed condition. -/
theorem step_preserves_abort_returned (s : RpcState) (e : Event)
    (h : abort_returned s = true) : abort_returned (step s e) = true := by
  have hc : s.gate.closed = true := by
    simp [abort_returned, Bool.and_eq_true] at h
    exact h.1
  have hn : s.gate.count = 0 := by
    simp [abort_returned, Bool.and_eq_true] at h
    exact h.2
  cases e with
  | invoke k id =>
    simp [step, ff_invoke, hc, abort_returned, hn]
  | complete o =>
    cases hp : s.pending with
    | nil => simpa [step, ff_complete, hp] using h
    | cons p rest =>
      simp [step, ff_complete, hp, abort_returned, hc, hn]
  | abortCall =>
    simp [step, abort, abort_returned, hn]

/-- A sequence of events preserves the drained-and-closed condition. -/
theorem run_preserves_abort_returned (s : RpcState) (es : List Event)
    (h : abort_returned s = true) : abort_returned (run s es) = true := by
  induction es generalizing s with
  | nil => simpa [run] using h
  | cons e rest ih =>
    have h1 := step_preserves_abort_returned s e h
    simpa [run, List.foldl_cons] using ih (step s e) h1

/- ---------------------------------------------------------------------
Claim theorems
--------------------------------------------------------------------- -/

/-- C1: for every fire-and-forget operation (send_append_entries_reply,
send_vote_request, send_vote_reply, send_timeout_now, send_read_quorum,
send_read_quorum_reply), if the shutdown gate is already closing when the
call is invoked, no network send is initiated by that call: the list of
initiated sends is unchanged. -/
theorem C1_gate_closing_no_send (s : RpcState) (id : ServerId)
    (h : s.gate.closed = true) :
    (send_append_entries_reply s id).2.sent = s.sent ∧
    (send_vote_request s id).2.sent = s.sent ∧
    (send_vote_reply s id).2.sent = s.sent ∧
    (send_timeout_now s id).2.sent = s.sent ∧
    (send_read_quorum s id).2.sent = s.sent ∧
    (send_read_quorum_reply s id).2.sent = s.sent := by
  simp [send_append_entries_reply, send_vote_request, send_vote_reply,
        send_timeout_now, send_read_quorum, send_read_quorum_reply,
        ff_invoke, h]

theorem C1_gate_closing_no_send_witness :
    closedState.gate.closed = true ∧
    ((send_append_entries_reply closedState 7).2.sent = closedState.sent ∧
     (send_vote_request closedState 7).2.sent = closedState.sent ∧
     (send_vote_reply closedState 7).2.sent = closedState.sent ∧
     (send_timeout_now closedState 7).2.sent = closedState.sent ∧
     (send_read_quorum closedState 7).2.sent = closedState.sent ∧
     (send_read_quorum_reply closedState 7).2.sent = closedState.sent) :=
  ⟨rfl, C1_gate_closing_no_send closedState 7 rfl⟩

/-- C2: abort() transitions the shutdown gate to closing, and its returned
future resolves only once the in-flight count is zero; from any state where
abort has returned (gate closed and drained), the in-flight count is zero
and stays zero under every subsequent sequence of events. -/
theorem C2_abort_drains (s : RpcState) (es : List Event)
    (h : abort_returned s = true) :
    (abort s).gate.closed = true ∧
    s.gate.count = 0 ∧
    (run s es).gate.count = 0 ∧
    (run s es).gate.closed = true := by
  have h2 := run_preserves_abort_returned s es h
  simp [abort_returned, Bool.and_eq_true, beq_iff_eq] at h h2
  exact ⟨by simp [abort], h.2, h2.2, h2.1⟩

theorem C2_abort_drains_witness :
    abort_returned closedState = true ∧
    ((abort closedState).gate.closed = true ∧
     closedState.gate.count = 0 ∧
     (run closedState [Event.invoke FFKind.voteRequest 3,
        Event.complete Outcome.ok, Event.abortCall]).gate.count = 0 ∧
     (run closedState [Event.invoke FFKind.voteRequest 3,
        Event.complete Outcome.ok, Event.abortCall]).gate.closed = true) :=
  ⟨by decide,
   C2_abort_drains closedState
     [Event.invoke FFKind.voteRequest 3, Event.complete Outcome.ok,
      Event.abortCall] (by decide)⟩

/-- C3: calling abort a second time after a first abort has completed is
safe: the gate is already closed and drained, so the second close changes
nothing, returns immediately (its drain condition already holds), and the
in-flight count is not touched (no double-counted drainage). -/
theorem C3_abort_twice_safe (s : RpcState) (h : abort_returned s = true) :
    abort s = s ∧
    abort_returned (abort s) = true ∧
    (abort s).gate.count = s.gate.count := by
  simp [abort_returned, Bool.and_eq_true, beq_iff_eq] at h
  obtain ⟨hc, hn⟩ := h
  have hs : abort s = s := by
    cases s with
    | mk cfg now reg gate pending sent logs resolves =>
      cases gate with
      | mk c cl =>
        simp at hc
        simp [abort, hc]
  exact ⟨hs, by simp [hs, abort_returned, hc, hn], by simp [hs]⟩

theorem C3_abort_twice_safe_witness :
    abort_returned closedState = true ∧
    (abort closedState = closedState ∧
     abort_returned (abort closedState) = true ∧
     (abort closedState).gate.count = closedState.gate.count) :=
  ⟨by decide, C3_abort_twice_safe closedState (by decide)⟩

/-- C4: when an in-flight fire-and-forget send completes with the timeout
outcome, no log entry is produced; when it completes with any other failure
outcome, exactly one log entry referencing the destination server id is
produced; in both cases the failure is swallowed: nothing is re-sent and
the operation is simply removed from the in-flight set. -/
theorem C4_ff_failure_logging (s : RpcState) (p : PendingSend)
    (rest : List PendingSend) (d : Nat) (hp : s.pending = p :: rest) :
    (ff_complete s Outcome.timeout).logs = s.logs ∧
    (ff_complete s Outcome.timeout).sent = s.sent ∧
    (ff_complete s (Outcome.failure d)).logs
      = s.logs ++ [⟨ffLogText p.kind, p.dest⟩] ∧
    (ff_complete s (Outcome.failure d)).sent = s.sent ∧
    (ff_complete s (Outcome.failure d)).pending = rest := by
  simp [ff_complete, hp, handle_ff_exception]

theorem C4_ff_failure_logging_witness :
    pendingState.pending = ⟨FFKind.voteRequest, 7⟩ :: [] ∧
    ((ff_complete pendingState Outcome.timeout).logs = pendingState.logs ∧
     (ff_complete pendingState Outcome.timeout).sent = pendingState.sent ∧
     (ff_complete pendingState (Outcome.failure 3)).logs
       = pendingState.logs ++ [⟨ffLogText FFKind.voteRequest, 7⟩] ∧
     (ff_complete pendingState (Outcome.failure 3)).sent = pendingState.sent ∧
     (ff_complete pendingState (Outcome.failure 3)).pending = []) :=
  ⟨rfl, C4_ff_failure_logging pendingState ⟨FFKind.voteRequest, 7⟩ [] 3 rfl⟩

/-- C5: send_append_entries is request/response: whenever the destination id
resolves, the call's result is exactly the substrate's result — the reply
value unmodified on success, the substrate's failure propagated on failure —
and the deadline argument handed to the substrate is none (db::no_timeout),
so the transport layers no additional deadline. -/
theorem C5_append_entries_propagates
    (net : SubstrateSend AppendRequest AppendResult)
    (r : Registry) (gid : GroupId) (selfId : ServerId) (id : ServerId)
    (req : AppendRequest) (addr : InetAddress)
    (h : get_inet_address r id = Except.ok addr) :
    send_append_entries net r gid selfId id req
      = (net addr none gid selfId id req).mapError CallError.net := by
  cases hnet : net addr none gid selfId id req <;>
    simp [send_append_entries, h, hnet, Except.mapError]

theorem C5_append_entries_propagates_witness :
    get_inet_address [(3, 99, false)] 3 = Except.ok 99 ∧
    send_append_entries (fun _ _ _ _ _ _ => Except.ok 42)
        [(3, 99, false)] 0 1 3 5 = Except.ok 42 := by
  refine ⟨rfl, ?_⟩
  have h := C5_append_entries_propagates (fun _ _ _ _ _ _ => Except.ok 42)
    [(3, 99, false)] 0 1 3 5 99 rfl
  simpa [Except.mapError] using h

/-- C6: add_server decodes the info payload into a network address and
installs the mapping with the expirable flag false; a subsequent resolve of
the id yields the decoded address, and a second add_server for the same id
replaces the previous address (last write wins), still non-expirable. -/
theorem C6_add_server_installs (r : Registry) (id : ServerId)
    (i1 i2 : List Byte) (a1 a2 : InetAddress)
    (h1 : deserialize_inet_address i1 = Except.ok a1)
    (h2 : deserialize_inet_address i2 = Except.ok a2) :
    add_server r id i1 = Except.ok (update_address_mapping r id a1 false) ∧
    lookup_address (add_server_run r id i1) id = some (a1, false) ∧
    lookup_address (add_server_run (add_server_run r id i1) id i2) id
      = some (a2, false) := by
  simp [add_server, add_server_run, h1, h2, lookup_update_self]

theorem C6_add_server_installs_witness :
    deserialize_inet_address [10, 0, 0, 7] = Except.ok 167772167 ∧
    deserialize_inet_address [10, 0, 0, 8] = Except.ok 167772168 ∧
    (add_server ([] : Registry) 3 [10, 0, 0, 7]
       = Except.ok (update_address_mapping ([] : Registry) 3 167772167 false) ∧
     lookup_address (add_server_run ([] : Registry) 3 [10, 0, 0, 7]) 3
       = some (167772167, false) ∧
     lookup_address
       (add_server_run (add_server_run ([] : Registry) 3 [10, 0, 0, 7]) 3
         [10, 0, 0, 8]) 3 = some (167772168, false)) :=
  ⟨rfl, rfl,
   C6_add_server_installs ([] : Registry) 3 [10, 0, 0, 7] [10, 0, 0, 8]
     167772167 167772168 rfl rfl⟩

/-- C7: for a malformed info payload that fails to decode, add_server
propagates the decoding failure and installs nothing: the registry the
caller observes after the failed call is unchanged. -/
theorem C7_add_server_malformed (r : Registry) (id : ServerId)
    (info : List Byte) (e : DecodeError)
    (h : deserialize_inet_address info = Except.error e) :
    add_server r id info = Except.error e ∧
    add_server_run r id info = r := by
  simp [add_server, add_server_run, h]

theorem C7_add_server_malformed_witness :
    deserialize_inet_address [1, 2] = Except.error DecodeError.malformed ∧
    (add_server ([(9, 5, true)] : Registry) 3 [1, 2]
       = Except.error DecodeError.malformed ∧
     add_server_run ([(9, 5, true)] : Registry) 3 [1, 2]
       = ([(9, 5, true)] : Registry)) :=
  ⟨rfl,
   C7_add_server_malformed ([(9, 5, true)] : Registry) 3 [1, 2]
     DecodeError.malformed rfl⟩

/-- C8: every fire-and-forget send that reaches the network carries the
deadline now + tick_interval * (election_timeout / 2), with integer
division of the election-timeout tick count by two (raft_rpc::timeout). -/
theorem C8_deadline_formula (s : RpcState) (k : FFKind) (id : ServerId)
    (a : InetAddress) (ex : Bool)
    (hopen : s.gate.closed = false)
    (hres : lookup_address s.registry id = some (a, ex)) :
    (ff_invoke s k id).2.sent
      = s.sent ++
        [⟨k, id, a,
          s.now + s.cfg.tick_interval * (s.cfg.election_timeout / 2)⟩] := by
  simp [ff_invoke, hopen, get_inet_address, hres, rpc_timeout]

theorem C8_deadline_formula_witness :
    openState.gate.closed = false ∧
    lookup_address openState.registry 7 = some (42, true) ∧
    (ff_invoke openState FFKind.voteRequest 7).2.sent
      = openState.sent ++
        [⟨FFKind.voteRequest, 7, 42,
          openState.now +
            openState.cfg.tick_interval *
              (openState.cfg.election_timeout / 2)⟩] :=
  ⟨rfl, rfl, C8_deadline_formula openState FFKind.voteRequest 7 42 true rfl rfl⟩

/-- C9 counterexample: with an open gate and an empty registry, a
send_vote_request to id 7 hits a resolution failure — a non-timeout failure
of the enclosing send — yet the call returns normally and produces no log
entry at all (and no send), contradicting the claim that a resolution
failure in a fire-and-forget call is logged with the destination id like
any other non-timeout failure. -/
theorem C9_resolution_failure_not_logged_cex :
    lookup_address emptyRegState.registry 7 = none ∧
    (send_vote_request emptyRegState 7).1 = InvokeResult.returned ∧
    (send_vote_request emptyRegState 7).2.logs = [] ∧
    (send_vote_request emptyRegState 7).2.sent = [] := by
  decide

/-- C9 amended: a resolution failure surfaces as a failure of the enclosing
send for request/response calls (send_snapshot fails with the resolution
error, propagated to the caller); for fire-and-forget calls the failure
occurs inside the detached gate-tracked task before the logging handler is
attached, so the call returns normally to the caller, nothing is sent, no
log entry is produced, and the gate is left balanced — only the resolution
attempt is recorded. -/
theorem C9_resolution_failure_amended (s : RpcState) (k : FFKind)
    (id : ServerId) (net : SubstrateSend InstallSnapshot SnapshotReply)
    (gid : GroupId) (selfId : ServerId) (snap : InstallSnapshot)
    (hopen : s.gate.closed = false)
    (hres : lookup_address s.registry id = none) :
    send_snapshot net s.registry gid selfId id snap
      = Except.error CallError.resolve ∧
    ff_invoke s k id
      = (InvokeResult.returned, { s with resolves := s.resolves + 1 }) := by
  constructor
  · simp [send_snapshot, get_inet_address, hres]
  · cases s with
    | mk cfg now reg gate pending sent logs resolves =>
      cases gate with
      | mk c cl =>
        simp only [] at hopen
        subst hopen
        simp [ff_invoke, get_inet_address] at hres ⊢
        simp [hres]

theorem C9_resolution_failure_amended_witness :
    emptyRegState.gate.closed = false ∧
    lookup_address emptyRegState.registry 7 = none ∧
    (send_snapshot (fun _ _ _ _ _ _ => Except.ok 0) emptyRegState.registry
        0 1 7 5 = Except.error CallError.resolve ∧
     ff_invoke emptyRegState FFKind.voteRequest 7
       = (InvokeResult.returned,
          { emptyRegState with resolves := emptyRegState.resolves + 1 })) :=
  ⟨rfl, rfl,
   C9_resolution_failure_amended emptyRegState FFKind.voteRequest 7
     (fun _ _ _ _ _ _ => Except.ok 0) 0 1 5 rfl rfl⟩

/-- C10: invoking any fire-and-forget send while the shutdown gate is closed
raises the gate-closed error synchronously to the caller and leaves the
state untouched: in particular no address resolution is attempted and no
network send is initiated before the rejection. -/
theorem C10_closed_gate_raises (s : RpcState) (k : FFKind) (id : ServerId)
    (h : s.gate.closed = true) :
    ff_invoke s k id = (InvokeResult.raised_gate_closed, s) ∧
    (ff_invoke s k id).2.resolves = s.resolves ∧
    (ff_invoke s k id).2.sent = s.sent := by
  simp [ff_invoke, h]

theorem C10_closed_gate_raises_witness :
    closedState.gate.closed = true ∧
    (ff_invoke closedState FFKind.appendEntriesReply 9
       = (InvokeResult.raised_gate_closed, closedState) ∧
     (ff_invoke closedState FFKind.appendEntriesReply 9).2.resolves
       = closedState.resolves ∧
     (ff_invoke closedState FFKind.appendEntriesReply 9).2.sent
       = closedState.sent) :=
  ⟨rfl, C10_closed_gate_raises closedState FFKind.appendEntriesReply 9 rfl⟩

end RaftRpc
